import Mathlib

/-!
Verification of the user-registration backend (Node_Jest_TDD).

The repository's `src` holds the entry point (`index.js`), the express app
with its i18next initialisation (`src/unnamed/part_000`) and the user
service with `save` and `findByEmail` (`src/unnamed/part_001`).  The
validation middleware (UserRouter), the sequelize User model, the email
service and the locale message tables are not under `src`; they are
modelled from the spec (and, for the Turkish table, from the repository's
internationalization tests), and each such definition says so in its doc
comment.  Everything else is a direct shallow embedding of the source.
-/

namespace NodeJestTDD

/-- Raw signup input as received by the route: every field may be absent
(JavaScript `undefined`/`null` are both modelled as `none`).  The raw body
may also carry an `inactive` field, which the test suite shows is ignored. -/
structure SignupRequest where
  username : Option String
  email : Option String
  password : Option String
  inactive : Option Bool
deriving DecidableEq

/-- A persisted User row.  Modelled from the spec: the sequelize model
`src/user/User.js` is not under `src`; per the spec and the tests it stores
username, email, the hashed password, the activation token and the
`inactive` flag. -/
structure User where
  username : String
  email : String
  password : String
  activationToken : String
  inactive : Bool
deriving DecidableEq

/-- Keys of the locale message tables (`locales/<lng>/translation.json`). -/
inductive MsgKey where
  | username_null
  | username_size
  | email_null
  | email_invalid
  | password_null
  | password_pattern
  | password_size
  | email_inuse
  | user_create_success
deriving DecidableEq

/-- Modelled from the spec and the tests: the English (default) message
table, `locales/en/translation.json`, which is not under `src`.  The texts
are the ones the test suite expects. -/
def enMessage : MsgKey → String
  | .username_null => "Username cannot be null"
  | .username_size => "Username must be min 4 and max 32 characters long"
  | .email_null => "Email cannot be null"
  | .email_invalid => "Email is not valid"
  | .password_null => "Password cannot be null"
  | .password_pattern => "Password must contain 1 uppercase letter, 1 lowercase letter and 1 number"
  | .password_size => "Password must be at least 6 characters long"
  | .email_inuse => "Email already in use"
  | .user_create_success => "User created"

/-- Modelled from the spec and the tests: the Turkish message table,
`locales/tr/translation.json`, which is not under `src`.  The
internationalization tests expect the two username messages prefixed with
"Turkish " and every other message identical to the English text. -/
def trMessage : MsgKey → String
  | .username_null => "Turkish Username cannot be null"
  | .username_size => "Turkish Username must be min 4 and max 32 characters long"
  | k => enMessage k

/-- Locale resolution as configured by `i18next.init` in
`src/unnamed/part_000`: the request's Accept-Language header selects the
table, and any language without a table falls back to `fallbackLng: 'en'`.
The repository ships tables for `en` and `tr` only. -/
def translate (locale : String) (k : MsgKey) : String :=
  if locale = "tr" then trMessage k else enMessage k

/-- Modelled from the spec: the username rule of the UserRouter validation
chain (UserRouter is not under `src`): null check first, then length must
be between 4 and 32. -/
def usernameRule (u : Option String) : Option MsgKey :=
  match u with
  | none => some .username_null
  | some s => if s.length < 4 || 32 < s.length then some .username_size else none

/-- Splitting a character list at every occurrence of a separator; the
result is never empty. -/
def splitOnChar (sep : Char) : List Char → List (List Char)
  | [] => [[]]
  | c :: cs =>
    match splitOnChar sep cs with
    | [] => [[c]]
    | h :: t => if c = sep then [] :: h :: t else (c :: h) :: t

/-- Modelled from the spec: an email is valid when one `@` separates a
non-empty local part from a domain part that itself contains a `.`. -/
def emailValid (e : String) : Bool :=
  match splitOnChar '@' e.data with
  | [l, d] => !(l.isEmpty) && d.contains '.'
  | _ => false

/-- Modelled from the spec: the email rule of the pure field Validator:
null check first, then the shape check. -/
def emailRule (e : Option String) : Option MsgKey :=
  match e with
  | none => some .email_null
  | some s => if !(emailValid s) then some .email_invalid else none

def hasUpper (p : String) : Bool := p.data.any Char.isUpper

def hasLower (p : String) : Bool := p.data.any Char.isLower

def hasDigit (p : String) : Bool := p.data.any Char.isDigit

/-- The password pattern: at least one uppercase letter, one lowercase
letter and one digit. -/
def passwordPattern (p : String) : Bool := hasUpper p && hasLower p && hasDigit p

/-- Modelled from the spec: the password rule of the UserRouter validation
chain: null check, then the pattern check, then the minimum-length check,
in that order. -/
def passwordRule (p : Option String) : Option MsgKey :=
  match p with
  | none => some .password_null
  | some s =>
    if !(passwordPattern s) then some .password_pattern
    else if s.length < 6 then some .password_size
    else none

/-- The entry a field rule contributes to the error mapping: one
`(field, key)` pair when the rule failed, nothing otherwise. -/
def fieldEntry (f : String) (o : Option MsgKey) : List (String × MsgKey) :=
  match o with
  | some k => [(f, k)]
  | none => []

/-- Modelled from the spec: the pure field Validator.  All three fields are
evaluated, in the fixed order username, email, password, and the first
violated rule of each field contributes its message. -/
def fieldErrors (r : SignupRequest) : List (String × MsgKey) :=
  fieldEntry "username" (usernameRule r.username) ++
  fieldEntry "email" (emailRule r.email) ++
  fieldEntry "password" (passwordRule r.password)

/-- The Validator's localized error mapping, as an ordered association
list. -/
def validate (locale : String) (r : SignupRequest) : List (String × String) :=
  (fieldErrors r).map (fun e => (e.1, translate locale e.2))

/-- `findByEmail` from `src/unnamed/part_001`:
`User.findOne({ where: { email: email } })`, i.e. the first stored user
whose email is exactly (case-sensitively) the given one. -/
def findByEmail (email : String) (store : List User) : Option User :=
  store.find? (fun u => u.email == email)

/-- Modelled from the spec: the full email rule of the UserRouter chain —
the in-use check is a fourth rule on the email field, evaluated after the
null and shape checks pass, via `findByEmail`. -/
def emailRuleFull (store : List User) (e : Option String) : Option MsgKey :=
  match e with
  | none => some .email_null
  | some s =>
    if !(emailValid s) then some .email_invalid
    else if (findByEmail s store).isSome then some .email_inuse
    else none

/-- Modelled from the spec: the complete validation pass the router runs
before calling the service, including the email-uniqueness rule. -/
def fieldErrorsFull (store : List User) (r : SignupRequest) : List (String × MsgKey) :=
  fieldEntry "username" (usernameRule r.username) ++
  fieldEntry "email" (emailRuleFull store r.email) ++
  fieldEntry "password" (passwordRule r.password)

/-- The localized error mapping of the complete validation pass. -/
def validateFull (locale : String) (store : List User) (r : SignupRequest) :
    List (String × String) :=
  (fieldErrorsFull store r).map (fun e => (e.1, translate locale e.2))

/-- The hexadecimal digit for a value below 16: `'0'`–`'9'` then
`'a'`–`'f'`, as Node's `Buffer.toString('hex')` produces. -/
def hexDigit (n : Nat) : Char :=
  if n < 10 then Char.ofNat (48 + n) else Char.ofNat (87 + n)

/-- Whether a character is a lowercase hexadecimal digit. -/
def isHexChar (c : Char) : Bool :=
  (decide ('0' ≤ c) && decide (c ≤ '9')) || (decide ('a' ≤ c) && decide (c ≤ 'f'))

/-- `Buffer.toString('hex')`: each byte becomes two hexadecimal characters,
high nibble first.  Bytes are machine bytes, so both nibbles are reduced
mod 16. -/
def bytesToHexChars : List Nat → List Char
  | [] => []
  | b :: bs => hexDigit (b / 16 % 16) :: hexDigit (b % 16) :: bytesToHexChars bs

/-- `generateToken` from `src/unnamed/part_001`:
`crypto.randomBytes(length).toString('hex').substring(0, length)`.  The
random bytes drawn by `crypto.randomBytes(length)` are passed in
explicitly. -/
def generateToken (randomBytes : List Nat) (length : Nat) : String :=
  String.mk ((bytesToHexChars randomBytes).take length)

/-- Modelled from the spec: the sequelize User model (not under `src`)
declares `inactive` with default value `true`, so `User.create` on the
object built in `save` — which has no `inactive` field — stores
`inactive = true`. -/
def mkUser (username email password activationToken : String) : User :=
  { username := username, email := email, password := password,
    activationToken := activationToken, inactive := true }

/-- Modelled from the spec: the activation email content built by
`src/email/emailService.js` (not under `src`) embeds the literal token. -/
def activationEmailContent (token : String) : String :=
  "Token is " ++ token

/-- A dispatched activation notification (`recipient` is the mail's `to`
address). -/
structure Notification where
  recipient : String
  content : String
deriving DecidableEq

/-- A side effect of the service, in the order it happened. -/
inductive Event where
  | created (u : User)
  | emailSent (n : Notification)
deriving DecidableEq

/-- What `save` left behind: whether it resolved, the store after it, the
notifications dispatched, and the ordered side-effect trace. -/
structure SaveResult where
  ok : Bool
  store : List User
  sent : List Notification
  trace : List Event
deriving DecidableEq

/-- `save` from `src/unnamed/part_001`: hash the password with
`bcrypt.hash(password, 10)`, build the user object `{ username, email,
password: hash, activationToken: generateToken(16) }`, `await
User.create(user)`, then `await sendAccountActivation(user.email,
user.activationToken)`.  The bcrypt hash and the random bytes are passed in
explicitly; `emailOk` says whether the awaited notification dispatch
succeeds.  There is no try/catch: when the dispatch fails, `save` rejects,
and the row created just before stays in the store. -/
def save (hash : String → String) (randomBytes : List Nat) (emailOk : Bool)
    (username email password : String) (store : List User) : SaveResult :=
  let hashed := hash password
  let user := mkUser username email hashed (generateToken randomBytes 16)
  let afterCreate := store ++ [user]
  if emailOk then
    let note : Notification :=
      { recipient := user.email, content := activationEmailContent user.activationToken }
    { ok := true, store := afterCreate, sent := [note],
      trace := [.created user, .emailSent note] }
  else
    { ok := false, store := afterCreate, sent := [],
      trace := [.created user] }

/-- Outcome of one registration request. -/
inductive Outcome where
  | success (message : String)
  | validationFailure (errors : List (String × String))
  | fatal (msg : String)
deriving DecidableEq

/-- Result of one registration request: its outcome, the store after it,
the notifications dispatched and the ordered side-effect trace. -/
structure RegisterResult where
  outcome : Outcome
  store : List User
  sent : List Notification
  trace : List Event
deriving DecidableEq

/-- Modelled from the spec: the registration route handler (UserRouter, not
under `src`).  It runs the complete validation pass; on any error it
responds with the error mapping and performs no side effect; otherwise it
awaits `save` and responds "User created", and a rejection of `save`
propagates as a fatal error.  The branch for a missing field after empty
validation is unreachable (the null checks precede it). -/
def register (hash : String → String) (randomBytes : List Nat) (emailOk : Bool)
    (locale : String) (r : SignupRequest) (store : List User) : RegisterResult :=
  let errors := validateFull locale store r
  if errors.isEmpty then
    match r.username, r.email, r.password with
    | some u, some e, some p =>
      let s := save hash randomBytes emailOk u e p store
      if s.ok then
        { outcome := .success (translate locale .user_create_success),
          store := s.store, sent := s.sent, trace := s.trace }
      else
        { outcome := .fatal "notification dispatch failed",
          store := s.store, sent := s.sent, trace := s.trace }
    | _, _, _ =>
      { outcome := .fatal "missing field", store := store, sent := [], trace := [] }
  else
    { outcome := .validationFailure errors, store := store, sent := [], trace := [] }

/-- The user row `save` persists: supplied username and email, hashed
password, generated token, `inactive = true` by model default. -/
def savedUser (hash : String → String) (rb : List Nat) (un em pw : String) : User :=
  mkUser un em (hash pw) (generateToken rb 16)

/-- The notification `save` dispatches: recipient `user.email`, content
embedding the generated token. -/
def sentNote (rb : List Nat) (em : String) : Notification :=
  { recipient := em, content := activationEmailContent (generateToken rb 16) }

/-- The valid signup input of the end-to-end test. -/
def validUserRequest : SignupRequest :=
  { username := some "user1", email := some "user1@mail.com",
    password := some "P4assword", inactive := none }

/-- An invalid signup input with a null email (username and password
valid). -/
def emailNullRequest : SignupRequest :=
  { username := some "user1", email := none,
    password := some "P4ssword", inactive := none }

/-- An invalid signup input with a null username (email and password
valid). -/
def usernameNullRequest : SignupRequest :=
  { username := none, email := some "user1@mail.com",
    password := some "P4ssword", inactive := none }

/-- A concrete user row already in the store, for instantiating the
duplicate-email scenarios. -/
def storedUser : User :=
  mkUser "user1" "user1@mail.com" "storedhash" "abcdef0123456789"

/-- A concrete stand-in for `bcrypt.hash(·, 10)` used to instantiate the
theorems: it prepends the modular-crypt-format prefix bcrypt outputs, so
its output always differs from its input. -/
def hashStub (s : String) : String := "$2b$10$" ++ s

/-- A concrete draw of `crypto.randomBytes(16)`. -/
def zeroBytes : List Nat := List.replicate 16 0

/-- A field rule contributes nothing to the error mapping exactly when it
passes. -/
theorem fieldEntry_eq_nil {f : String} {o : Option MsgKey} :
    fieldEntry f o = [] ↔ o = none := by
  cases o <;> simp [fieldEntry]

/-- An empty Validator mapping means every field rule passed. -/
theorem validate_eq_nil (locale : String) (r : SignupRequest)
    (h : validate locale r = []) :
    usernameRule r.username = none ∧ emailRule r.email = none ∧
      passwordRule r.password = none := by
  simp only [validate, fieldErrors, List.map_eq_nil_iff, List.append_eq_nil,
    fieldEntry_eq_nil] at h
  exact ⟨h.1.1, h.1.2, h.2⟩

/-- A passing email rule means the shape check passed. -/
theorem emailRule_none (e : String) (h : emailRule (some e) = none) :
    emailValid e = true := by
  cases hev : emailValid e with
  | true => rfl
  | false => simp [emailRule, hev] at h

/-- The in-use message is the same in every locale table. -/
theorem translate_email_inuse (locale : String) :
    translate locale MsgKey.email_inuse = "Email already in use" := by
  unfold translate
  split <;> rfl

/-- The username rule passes on lengths between 4 and 32. -/
theorem usernameRule_ok (u : String) (h1 : 4 ≤ u.length) (h2 : u.length ≤ 32) :
    usernameRule (some u) = none := by
  simp [usernameRule]
  omega

/-- The email rule passes on a shape-valid email. -/
theorem emailRule_ok (e : String) (hev : emailValid e = true) :
    emailRule (some e) = none := by
  simp [emailRule, hev]

/-- The password rule passes when the pattern holds and the length is at
least 6. -/
theorem passwordRule_ok (p : String) (hpp : passwordPattern p = true)
    (hpl : 6 ≤ p.length) : passwordRule (some p) = none := by
  simp [passwordRule, hpp]
  omega

/-- Hex encoding yields two characters per byte. -/
theorem bytesToHexChars_length (bs : List Nat) :
    (bytesToHexChars bs).length = 2 * bs.length := by
  induction bs with
  | nil => rfl
  | cons b bs ih => simp [bytesToHexChars, ih]; omega

/-- The token generated from 16 random bytes has 16 characters. -/
theorem generateToken_length (bs : List Nat) (h : bs.length = 16) :
    (generateToken bs 16).length = 16 := by
  simp [generateToken, String.length, List.length_take, bytesToHexChars_length, h]

/-- The token generated from 16 random bytes is non-empty. -/
theorem generateToken_ne_empty (bs : List Nat) (h : bs.length = 16) :
    generateToken bs 16 ≠ "" := by
  intro h0
  have hl := generateToken_length bs h
  rw [h0] at hl
  exact absurd hl (by decide)

/-- Every value below 16 encodes to a hexadecimal character. -/
theorem hexDigit_hex : ∀ n : Nat, n < 16 → isHexChar (hexDigit n) = true := by decide

/-- Hex encoding produces only hexadecimal characters. -/
theorem bytesToHexChars_hex (bs : List Nat) :
    ∀ c ∈ bytesToHexChars bs, isHexChar c = true := by
  induction bs with
  | nil => intro c hc; cases hc
  | cons b bs ih =>
    intro c hc
    rcases hc with _ | ⟨_, hc⟩
    · exact hexDigit_hex _ (Nat.mod_lt _ (by omega))
    · rcases hc with _ | ⟨_, hc⟩
      · exact hexDigit_hex _ (Nat.mod_lt _ (by omega))
      · exact ih c hc

/-- Every character of a generated token is hexadecimal. -/
theorem generateToken_hex (bs : List Nat) (c : Char)
    (hc : c ∈ (generateToken bs 16).data) : isHexChar c = true := by
  unfold generateToken at hc
  exact bytesToHexChars_hex bs c (List.take_subset _ _ hc)

/-- C1: for the signup input `{username: "user1", email: "user1@mail.com",
password: "P4assword"}` against an empty store, `register` returns the
success acknowledgment "User created"; exactly one user row is persisted,
with `inactive = true`, a non-empty activation token and a stored password
different from the literal input (given that the bcrypt hash of the input
differs from it); and exactly one notification is dispatched to
"user1@mail.com" whose content contains the stored activation token
verbatim. -/
theorem c1_register_valid_user_end_to_end (hash : String → String) (rb : List Nat)
    (hhash : hash "P4assword" ≠ "P4assword") (hrb : rb.length = 16) :
    ∃ user : User,
      register hash rb true "en" validUserRequest [] =
        { outcome := .success "User created",
          store := [user],
          sent := [{ recipient := "user1@mail.com",
                     content := activationEmailContent user.activationToken }],
          trace := [.created user,
                    .emailSent { recipient := "user1@mail.com",
                                 content := activationEmailContent user.activationToken }] } ∧
      user.inactive = true ∧
      user.activationToken ≠ "" ∧
      user.password ≠ "P4assword" ∧
      (∃ pre suf, activationEmailContent user.activationToken =
        pre ++ user.activationToken ++ suf) := by
  refine ⟨mkUser "user1" "user1@mail.com" (hash "P4assword") (generateToken rb 16),
    ?_, rfl, generateToken_ne_empty rb hrb, hhash, "Token is ", "",
    by simp [activationEmailContent]⟩
  have hv : validateFull "en" []
      { username := some "user1", email := some "user1@mail.com",
        password := some "P4assword", inactive := none } = [] := by decide
  have hm : translate "en" MsgKey.user_create_success = "User created" := by decide
  simp [register, validUserRequest, hv, hm, save, mkUser]

/-- C1 witness: the end-to-end run instantiated with the concrete hash
stand-in and the concrete byte draw. -/
theorem c1_register_valid_user_end_to_end_inst :
    ∃ user : User,
      register hashStub zeroBytes true "en" validUserRequest [] =
        { outcome := .success "User created",
          store := [user],
          sent := [{ recipient := "user1@mail.com",
                     content := activationEmailContent user.activationToken }],
          trace := [.created user,
                    .emailSent { recipient := "user1@mail.com",
                                 content := activationEmailContent user.activationToken }] } ∧
      user.inactive = true ∧
      user.activationToken ≠ "" ∧
      user.password ≠ "P4assword" ∧
      (∃ pre suf, activationEmailContent user.activationToken =
        pre ++ user.activationToken ++ suf) :=
  c1_register_valid_user_end_to_end hashStub zeroBytes (by decide) (by decide)

/-- C2: every signup input whose username is present with length in
[4, 32], whose email matches the local@domain.tld shape, and whose
password has an uppercase letter, a lowercase letter and a digit and
length at least 6, gets an empty error mapping from the Validator, in
every locale. -/
theorem c2_validator_accepts_valid_input (locale : String) (r : SignupRequest)
    (u e p : String)
    (hu : r.username = some u) (hul : 4 ≤ u.length) (huh : u.length ≤ 32)
    (he : r.email = some e) (hev : emailValid e = true)
    (hp : r.password = some p) (hpp : passwordPattern p = true)
    (hpl : 6 ≤ p.length) :
    validate locale r = [] := by
  simp [validate, fieldErrors, hu, he, hp, fieldEntry,
    usernameRule_ok u hul huh, emailRule_ok e hev, passwordRule_ok p hpp hpl]

/-- C2 witness: the valid end-to-end input produces an empty error
mapping. -/
theorem c2_validator_accepts_valid_input_inst :
    validate "en" validUserRequest = [] :=
  c2_validator_accepts_valid_input "en" validUserRequest
    "user1" "user1@mail.com" "P4assword"
    rfl (by decide) (by decide) rfl (by decide) rfl (by decide) (by decide)

/-- C3: every user row a registration adds to the store has
`inactive = true` — whatever `inactive` value the raw input carried — and
stores exactly the bcrypt hash of the supplied password, which differs
from the plaintext whenever the hash does. -/
theorem c3_persisted_row_hashed_and_inactive (hash : String → String)
    (rb : List Nat) (emailOk : Bool) (locale : String)
    (r : SignupRequest) (store : List User) (u : User) (p : String)
    (hp : r.password = some p) (hne : hash p ≠ p)
    (hmem : u ∈ (register hash rb emailOk locale r store).store)
    (hnew : u ∉ store) :
    u.inactive = true ∧ u.password = hash p ∧ u.password ≠ p := by
  obtain ⟨ru, re, rp, ri⟩ := r
  simp only at hp
  subst hp
  by_cases hE : (validateFull locale store ⟨ru, re, some p, ri⟩).isEmpty
  · cases ru with
    | none => simp [register, hE] at hmem; exact absurd hmem hnew
    | some un =>
      cases re with
      | none => simp [register, hE] at hmem; exact absurd hmem hnew
      | some em =>
        simp [register, hE, save, mkUser] at hmem
        cases emailOk <;> simp at hmem <;>
          rcases hmem with hmem | hmem
        · exact absurd hmem hnew
        · subst hmem; exact ⟨rfl, rfl, hne⟩
        · exact absurd hmem hnew
        · subst hmem; exact ⟨rfl, rfl, hne⟩
  · simp [register, hE] at hmem
    exact absurd hmem hnew

/-- C3 witness: the row created by the concrete end-to-end run — even
though the raw input is taken with `inactive := some false` — is inactive
and carries the hash, not the plaintext. -/
theorem c3_persisted_row_hashed_and_inactive_inst :
    (savedUser hashStub zeroBytes "user1" "user1@mail.com" "P4assword").inactive = true ∧
    (savedUser hashStub zeroBytes "user1" "user1@mail.com" "P4assword").password =
      hashStub "P4assword" ∧
    (savedUser hashStub zeroBytes "user1" "user1@mail.com" "P4assword").password ≠
      "P4assword" :=
  c3_persisted_row_hashed_and_inactive hashStub zeroBytes true "en"
    { validUserRequest with inactive := some false } []
    (savedUser hashStub zeroBytes "user1" "user1@mail.com" "P4assword") "P4assword"
    rfl (by decide) (by decide) (by decide)

/-- C4: when the three field rules pass but the email equals
(case-sensitively) the email of a stored user, the full validation pass
yields exactly the single entry `email -> "Email already in use"`,
`register` fails with exactly that mapping, and the store is unchanged. -/
theorem c4_duplicate_email_rejected (hash : String → String) (rb : List Nat)
    (emailOk : Bool) (locale : String) (r : SignupRequest) (store : List User)
    (e : String) (u0 : User)
    (hval : validate locale r = []) (he : r.email = some e)
    (hfound : findByEmail e store = some u0) :
    validateFull locale store r = [("email", "Email already in use")] ∧
    register hash rb emailOk locale r store =
      { outcome := .validationFailure [("email", "Email already in use")],
        store := store, sent := [], trace := [] } := by
  obtain ⟨h1, h2, h3⟩ := validate_eq_nil locale r hval
  rw [he] at h2
  have hev := emailRule_none e h2
  have hfull : validateFull locale store r = [("email", "Email already in use")] := by
    simp [validateFull, fieldErrorsFull, he, h1, h3, fieldEntry_eq_nil.mpr h1,
      fieldEntry_eq_nil.mpr h3, emailRuleFull, hev, hfound, fieldEntry,
      translate_email_inuse]
  refine ⟨hfull, ?_⟩
  simp [register, hfull]

/-- C4 witness: a second registration of the already-stored valid user
fails with exactly the in-use error and adds no row. -/
theorem c4_duplicate_email_rejected_inst :
    validateFull "en" [storedUser] validUserRequest =
      [("email", "Email already in use")] ∧
    register hashStub zeroBytes true "en" validUserRequest [storedUser] =
      { outcome := .validationFailure [("email", "Email already in use")],
        store := [storedUser], sent := [], trace := [] } :=
  c4_duplicate_email_rejected hashStub zeroBytes true "en" validUserRequest
    [storedUser] "user1@mail.com" storedUser (by decide) rfl (by decide)

/-- C5: the full validation pass always evaluates all three fields — the
key list of the error mapping is exactly the failing fields in the fixed
order username, email, password — and in particular a request with a null
username and an already-in-use (otherwise valid) email yields exactly the
keys `username` and `email`, in that order. -/
theorem c5_field_order_no_short_circuit (locale : String) (store : List User)
    (r : SignupRequest) :
    ((validateFull locale store r).map Prod.fst =
      (if (usernameRule r.username).isSome then ["username"] else []) ++
      (if (emailRuleFull store r.email).isSome then ["email"] else []) ++
      (if (passwordRule r.password).isSome then ["password"] else [])) ∧
    (∀ e : String, r.username = none → r.email = some e → emailValid e = true →
      (findByEmail e store).isSome = true → passwordRule r.password = none →
      (validateFull locale store r).map Prod.fst = ["username", "email"]) := by
  constructor
  · cases h1 : usernameRule r.username <;>
      cases h2 : emailRuleFull store r.email <;>
      cases h3 : passwordRule r.password <;>
      simp [validateFull, fieldErrorsFull, fieldEntry, h1, h2, h3]
  · intro e hu he hev hfound hpw
    simp [validateFull, fieldErrorsFull, fieldEntry, hu, he, hpw,
      usernameRule, emailRuleFull, hev, hfound]

/-- C5 witness: with a null username and the stored user's email, the
mapping has exactly the keys username and email, in that order. -/
theorem c5_field_order_no_short_circuit_inst :
    (validateFull "en" [storedUser] usernameNullRequest).map Prod.fst =
      ["username", "email"] :=
  (c5_field_order_no_short_circuit "en" [storedUser] usernameNullRequest).2
    "user1@mail.com" rfl rfl (by decide) (by decide) (by decide)

/-- C6: the password rules run in the order null check, pattern check,
length check: a null password reports the null message, every non-null
password failing the pattern reports the pattern message (even when also
shorter than 6), and every password satisfying the pattern but shorter
than 6 — such as "B2Ba" — reports the length message. -/
theorem c6_password_rule_order :
    passwordRule none = some MsgKey.password_null ∧
    (∀ p : String, passwordPattern p = false →
      passwordRule (some p) = some MsgKey.password_pattern) ∧
    (∀ p : String, passwordPattern p = true → p.length < 6 →
      passwordRule (some p) = some MsgKey.password_size) ∧
    passwordRule (some "B2Ba") = some MsgKey.password_size := by
  refine ⟨rfl, ?_, ?_, by decide⟩
  · intro p hp; simp [passwordRule, hp]
  · intro p hp hl; simp [passwordRule, hp, hl]

/-- C6 witness: a short all-lowercase password reports the pattern
message, and the short pattern-satisfying "B2Ba" reports the length
message. -/
theorem c6_password_rule_order_inst :
    passwordRule (some "abc") = some MsgKey.password_pattern ∧
    passwordRule (some "B2Ba") = some MsgKey.password_size :=
  ⟨c6_password_rule_order.2.1 "abc" (by decide),
   c6_password_rule_order.2.2.1 "B2Ba" (by decide) (by decide)⟩

/-- C7: when the validation pass fails — a field rule or the uniqueness
rule — `register` responds with exactly that error mapping and performs
zero side effects: the store is unchanged, nothing is dispatched, the
trace is empty. -/
theorem c7_failed_validation_no_side_effects (hash : String → String)
    (rb : List Nat) (emailOk : Bool) (locale : String) (r : SignupRequest)
    (store : List User)
    (h : validateFull locale store r ≠ []) :
    register hash rb emailOk locale r store =
      { outcome := .validationFailure (validateFull locale store r),
        store := store, sent := [], trace := [] } := by
  cases hE : validateFull locale store r with
  | nil => exact absurd hE h
  | cons a t => simp [register, hE]

/-- C7 witness: the null-email request leaves an empty store untouched and
dispatches nothing. -/
theorem c7_failed_validation_no_side_effects_inst :
    register hashStub zeroBytes true "en" emailNullRequest [] =
      { outcome := .validationFailure (validateFull "en" [] emailNullRequest),
        store := [], sent := [], trace := [] } :=
  c7_failed_validation_no_side_effects hashStub zeroBytes true "en"
    emailNullRequest [] (by decide)

/-- C8: when the notification dispatch fails after the row was persisted,
`register` ends in a fatal error — never a field-error mapping — and the
persisted inactive row is not rolled back: an inactive, unnotified user
remains in the store. -/
theorem c8_notification_failure_fatal_no_rollback (hash : String → String)
    (rb : List Nat) (locale : String) (r : SignupRequest) (store : List User)
    (un em pw : String)
    (hv : validateFull locale store r = [])
    (hu : r.username = some un) (he : r.email = some em)
    (hp : r.password = some pw) :
    (register hash rb false locale r store).outcome =
      .fatal "notification dispatch failed" ∧
    (∀ errs, (register hash rb false locale r store).outcome ≠
      .validationFailure errs) ∧
    (register hash rb false locale r store).store =
      store ++ [mkUser un em (hash pw) (generateToken rb 16)] ∧
    (mkUser un em (hash pw) (generateToken rb 16)).inactive = true ∧
    (register hash rb false locale r store).sent = [] := by
  simp [register, hv, hu, he, hp, save, mkUser]

/-- C8 witness: the concrete end-to-end input with a failing mail
transport: fatal outcome, one inactive row persisted, nothing sent. -/
theorem c8_notification_failure_fatal_no_rollback_inst :
    (register hashStub zeroBytes false "en" validUserRequest []).outcome =
      .fatal "notification dispatch failed" ∧
    (∀ errs, (register hashStub zeroBytes false "en" validUserRequest []).outcome ≠
      .validationFailure errs) ∧
    (register hashStub zeroBytes false "en" validUserRequest []).store =
      [] ++ [mkUser "user1" "user1@mail.com" (hashStub "P4assword")
              (generateToken zeroBytes 16)] ∧
    (mkUser "user1" "user1@mail.com" (hashStub "P4assword")
      (generateToken zeroBytes 16)).inactive = true ∧
    (register hashStub zeroBytes false "en" validUserRequest []).sent = [] :=
  c8_notification_failure_fatal_no_rollback hashStub zeroBytes "en"
    validUserRequest [] "user1" "user1@mail.com" "P4assword"
    (by decide) rfl rfl rfl

/-- C9 counterexample: the invalid input with a null email submitted under
the two supported locales en and tr yields the SAME message string for the
(email, null) field/rule pair — not two different strings as claimed. -/
theorem c9_counterexample_same_message_both_locales :
    validate "en" emailNullRequest = [("email", "Email cannot be null")] ∧
    validate "tr" emailNullRequest = [("email", "Email cannot be null")] ∧
    translate "en" MsgKey.email_null = translate "tr" MsgKey.email_null := by
  decide

/-- C9 (amended): every locale other than tr — in particular every
unrecognized one — yields the default English table's messages; the tr
locale yields the Turkish table's entry for every field/rule pair; and the
Turkish table differs from the English one exactly on the two username
messages, so only for those pairs do the two locales yield two different
strings. -/
theorem c9_locale_tables (locale : String) (r : SignupRequest) :
    (locale ≠ "tr" → validate locale r = validate "en" r) ∧
    validate "tr" r = (fieldErrors r).map (fun e => (e.1, trMessage e.2)) ∧
    (trMessage .username_null ≠ enMessage .username_null ∧
     trMessage .username_size ≠ enMessage .username_size) ∧
    (∀ k : MsgKey, k ≠ .username_null → k ≠ .username_size →
      trMessage k = enMessage k) := by
  refine ⟨?_, ?_, by decide, ?_⟩
  · intro h
    simp [validate, translate, h]
  · simp [validate, translate]
  · intro k h1 h2
    cases k
    · exact absurd rfl h1
    · exact absurd rfl h2
    all_goals rfl

/-- C9 witness: a null username reported under an unrecognized locale (de)
gets the English messages, and the Turkish table entry for the null-email
rule is the identical English string. -/
theorem c9_locale_tables_inst :
    validate "de" usernameNullRequest = validate "en" usernameNullRequest ∧
    trMessage MsgKey.email_null = enMessage MsgKey.email_null :=
  ⟨(c9_locale_tables "de" usernameNullRequest).1 (by decide),
   (c9_locale_tables "de" usernameNullRequest).2.2.2 MsgKey.email_null
     (by decide) (by decide)⟩

/-- C10: on the successful path `save` persists strictly before it
notifies — the trace is `created` then `emailSent` — and both are awaited:
the outcome is a success only when the dispatch completed; a notification
in the trace always comes with the created row and goes to its email; and
the dispatched token is the freshly generated 16-character hexadecimal
activation token, determined by the random bytes alone, never by the raw
input. -/
theorem c10_save_persists_then_notifies (hash : String → String)
    (rb : List Nat) (locale : String) (r : SignupRequest) (store : List User)
    (un em pw : String)
    (hv : validateFull locale store r = [])
    (hu : r.username = some un) (he : r.email = some em)
    (hp : r.password = some pw) (hrb : rb.length = 16) :
    (register hash rb true locale r store =
      { outcome := .success (translate locale .user_create_success),
        store := store ++ [savedUser hash rb un em pw],
        sent := [sentNote rb em],
        trace := [.created (savedUser hash rb un em pw),
                  .emailSent (sentNote rb em)] }) ∧
    (register hash rb false locale r store =
      { outcome := .fatal "notification dispatch failed",
        store := store ++ [savedUser hash rb un em pw],
        sent := [],
        trace := [.created (savedUser hash rb un em pw)] }) ∧
    (∀ (emailOk : Bool) (n : Notification),
      Event.emailSent n ∈ (register hash rb emailOk locale r store).trace →
      emailOk = true ∧
      Event.created (savedUser hash rb un em pw) ∈
        (register hash rb emailOk locale r store).trace ∧
      n.recipient = (savedUser hash rb un em pw).email) ∧
    (∀ (emailOk : Bool) (m : String),
      (register hash rb emailOk locale r store).outcome = .success m →
      emailOk = true) ∧
    (savedUser hash rb un em pw).activationToken = generateToken rb 16 ∧
    (generateToken rb 16).length = 16 ∧
    (∀ c ∈ (generateToken rb 16).data, isHexChar c = true) := by
  have h1 : register hash rb true locale r store =
      { outcome := .success (translate locale .user_create_success),
        store := store ++ [savedUser hash rb un em pw],
        sent := [sentNote rb em],
        trace := [.created (savedUser hash rb un em pw),
                  .emailSent (sentNote rb em)] } := by
    simp [register, hv, hu, he, hp, save, mkUser, savedUser, sentNote]
  have h2 : register hash rb false locale r store =
      { outcome := .fatal "notification dispatch failed",
        store := store ++ [savedUser hash rb un em pw],
        sent := [],
        trace := [.created (savedUser hash rb un em pw)] } := by
    simp [register, hv, hu, he, hp, save, mkUser, savedUser]
  refine ⟨h1, h2, ?_, ?_, rfl, generateToken_length rb hrb,
    fun c hc => generateToken_hex rb c hc⟩
  · intro emailOk n hn
    cases emailOk
    · rw [h2] at hn
      simp at hn
    · rw [h1] at hn
      simp at hn
      subst hn
      rw [h1]
      simp [savedUser, sentNote, mkUser]
  · intro emailOk m hm
    cases emailOk
    · rw [h2] at hm
      simp at hm
    · rfl

/-- C10 witness: the concrete end-to-end run persists first, then sends
the 16-character hexadecimal token. -/
theorem c10_save_persists_then_notifies_inst :
    register hashStub zeroBytes true "en" validUserRequest [] =
      { outcome := .success (translate "en" .user_create_success),
        store := [] ++ [savedUser hashStub zeroBytes "user1" "user1@mail.com" "P4assword"],
        sent := [sentNote zeroBytes "user1@mail.com"],
        trace := [.created (savedUser hashStub zeroBytes "user1" "user1@mail.com" "P4assword"),
                  .emailSent (sentNote zeroBytes "user1@mail.com")] } ∧
    (generateToken zeroBytes 16).length = 16 :=
  ⟨(c10_save_persists_then_notifies hashStub zeroBytes "en" validUserRequest []
      "user1" "user1@mail.com" "P4assword" (by decide) rfl rfl rfl (by decide)).1,
   (c10_save_persists_then_notifies hashStub zeroBytes "en" validUserRequest []
      "user1" "user1@mail.com" "P4assword" (by decide) rfl rfl rfl (by decide)).2.2.2.2.2.1⟩

end NodeJestTDD
